import Mathlib

/-!
Shallow embedding of the National_ID_template_creator compositing pipeline
(flippedcolor.py, flippedblack.py, swapblack.py).

Modelling conventions:
* Python strings are Lean `String`s; `str.strip()` is `pyStrip`, `str.replace(" ", "")`
  is a filter on the space character, `str.split()` is `pySplitWs`, `str.split("\n")`
  is the single-character splitter `pySplitChar '\n'` (structural, so it reduces
  in the kernel, unlike `String.splitOn`), and `"|".join` is `String.intercalate "|"`.
* A PIL font is abstracted to its metric functions: `width s` is
  `getbbox(s)[2] - getbbox(s)[0]` (a natural number: PIL bounding boxes satisfy
  `x1 >= x0`) and `ayHeight` is `getbbox("Ay")[3] - getbbox("Ay")[1]`.  PIL returns
  `(0, 0, 0, 0)` for the empty string, recorded as the field `width_empty`.
* Mutation of the canvas is modelled as an emitted list of drawing operations `Op`:
  `Op.text` for `draw.text`, `Op.vtext` for the rotated off-screen-buffer paste of
  `draw_vertical_text` / the `ocr_rotated` branch, and `Op.paste` for image pastes
  (destination rectangle only).
* OCR, PDF rasterisation and the filesystem are oracles (function-valued
  environment records); exceptions raised by a library call are modelled with
  `Except`/`Bool` oracles, and a `try/except` block in the source corresponds to a
  total Lean function consuming those oracles.
-/

/-- Python's whitespace class for `str.strip` / `\s` (space, tab, newline,
carriage return, vertical tab, form feed). -/
def pyIsSpace (c : Char) : Bool :=
  c = ' ' || c = '\t' || c = '\n' || c = '\r' || c = '\x0b' || c = '\x0c'

/-- Python `str.strip()`: drop leading and trailing whitespace. -/
def pyStrip (s : String) : String :=
  String.mk (((s.toList.dropWhile pyIsSpace).reverse.dropWhile pyIsSpace).reverse)

/-- Split a character list at every character satisfying `p`, keeping empty
segments (the semantics of Python's `str.split(sep)` at each separator
occurrence). -/
def splitOnP (p : Char → Bool) (l : List Char) : List (List Char) :=
  match l with
  | [] => [[]]
  | c :: cs =>
    match splitOnP p cs with
    | [] => [[c]]
    | g :: gs => if p c then [] :: g :: gs else (c :: g) :: gs

/-- Python `str.split(sep)` for a single-character separator: split at every
occurrence, keeping empty pieces. -/
def pySplitChar (sep : Char) (s : String) : List String :=
  (splitOnP (fun c => c == sep) s.toList).map String.mk

/-- Python `str.split()` with no argument: split on whitespace runs, dropping
empty pieces. -/
def pySplitWs (s : String) : List String :=
  ((splitOnP pyIsSpace s.toList).map String.mk).filter (fun t => t != "")

/-- Python `str.splitlines()` for texts whose line separator is `"\n"` (the only
separator occurring in the inputs considered here); a trailing empty piece is
filtered out by the blank-line filters at every use site. -/
def splitlines (s : String) : List String :=
  pySplitChar '\n' s

/-- Python `x or d` for an optional string `x` (`None` and `""` are falsy). -/
def pyOrStr : Option String → String → String
  | some s, d => if s = "" then d else s
  | none, d => d

/-- Abstraction of a loaded PIL font: `width s` is the horizontal extent of
`getbbox s` and `ayHeight` the vertical extent of `getbbox "Ay"`.  PIL gives the
empty string an empty bounding box. -/
structure Font where
  width : String → Nat
  ayHeight : Nat
  width_empty : width "" = 0

/-- One canvas-mutating drawing operation. -/
inductive Op where
  | text (x y : Nat) (s : String)
  | vtext (x y : Nat) (s : String)
  | paste (x y w h : Nat)
  deriving DecidableEq, Repr

/-- Destination x-coordinate of an operation. -/
def Op.posX : Op → Nat
  | .text x _ _ => x
  | .vtext x _ _ => x
  | .paste x _ _ _ => x

/-- Destination y-coordinate of an operation. -/
def Op.posY : Op → Nat
  | .text _ y _ => y
  | .vtext _ y _ => y
  | .paste _ y _ _ => y

/-- The `png_point` dictionaries of `block_to_png_mapping`. -/
structure PngPoint where
  x : Nat
  y : Nat
  w : Nat
  h : Nat
  deriving DecidableEq, Repr

/-- The `block_to_png_mapping` table, identical in flippedcolor.py,
flippedblack.py and swapblack.py. -/
def block_to_png_mapping : List (Nat × PngPoint) :=
  [ (29, ⟨355, 268, 200, 30⟩),
    (30, ⟨355, 324, 200, 30⟩),
    (31, ⟨960, 146, 300, 30⟩),
    (32, ⟨960, 67, 300, 30⟩),
    (33, ⟨960, 200, 300, 30⟩),
    (34, ⟨961, 286, 378, 76⟩),
    (35, ⟨961, 362, 377, 82⟩),
    (37, ⟨355, 158, 200, 30⟩) ]

/-- Character-greedy prefix used by the block-34 handler of flippedcolor.py and
swapblack.py: keep appending characters while the accumulated width stays at
most `maxw`, stop at the first character that pushes it over. -/
def wrapChars34 (font : Font) (maxw : Nat) (acc : String) (l : List Char) : String :=
  match l with
  | [] => acc
  | c :: cs =>
    let t := acc.push c
    if font.width t > maxw then acc else wrapChars34 font maxw t cs

/-- Character-greedy prefix used by the block-35 handler of flippedcolor.py and
swapblack.py: the break condition is `x + text_width > 1335`. -/
def wrapChars35 (font : Font) (x : Nat) (acc : String) (l : List Char) : String :=
  match l with
  | [] => acc
  | c :: cs =>
    let t := acc.push c
    if x + font.width t > 1335 then acc else wrapChars35 font x t cs

/-- Block-34 drawing of flippedcolor.py / swapblack.py: one drawn line per
newline-separated source line, each cut character-greedily at width
`1335 - x`; no cap on the number of lines. -/
def linesOps34Color (font : Font) (p : PngPoint) (text : String) : List Op :=
  ((pySplitChar '\n' text).enum).map (fun pr =>
    Op.text p.x (p.y + pr.1 * (font.ayHeight + 2))
      (wrapChars34 font (1335 - p.x) "" pr.2.toList))

/-- Block-35 drawing of flippedcolor.py / swapblack.py: one drawn line per
newline-separated source line, each cut character-greedily so the text does not
reach x = 1335; no cap on the number of lines. -/
def linesOps35Color (font : Font) (x y : Nat) (text : String) : List Op :=
  ((pySplitChar '\n' text).enum).map (fun pr =>
    Op.text x (y + pr.1 * (font.ayHeight + 2))
      (wrapChars35 font x "" pr.2.toList))

/-- Inner word loop of the flippedblack.py wrap: fold the words of one source
line into wrapped lines.  Returns the pending `current_line` and the lines
emitted so far.  Note that when the candidate line is too wide the word itself
becomes the new `current_line` without being width-checked. -/
def wrapWordsLine (font : Font) (maxw : Nat) (cur : String) (ws : List String) :
    String × List String :=
  match ws with
  | [] => (cur, [])
  | w :: rest =>
    let t := if cur = "" then w else cur ++ " " ++ w
    if font.width t > maxw then
      let r := wrapWordsLine font maxw w rest
      (r.1, (if cur = "" then [] else [cur]) ++ r.2)
    else
      wrapWordsLine font maxw t rest

/-- Word wrapping of flippedblack.py blocks 34/35: for every source line (split
on `"\n"`), pack words (split on single spaces) greedily; after each source
line flush the pending `current_line` if non-empty. -/
def wrapWordsBlack (font : Font) (maxw : Nat) (text : String) : List String :=
  (pySplitChar '\n' text).foldl (fun acc line =>
    let r := wrapWordsLine font maxw "" (pySplitChar ' ' line)
    acc ++ r.2 ++ (if r.1 = "" then [] else [r.1])) []

/-- Font selection of the flippedblack.py block-34 handler: shrink to the
20.5-pt font (`font20`, itself already the loaded-or-fallback result) when the
un-wrapped text is wider than the available width. -/
def font34sel (font font20 : Font) (maxw : Nat) (text : String) : Font :=
  if font.width text > maxw then font20 else font

/-- Block-34 drawing of flippedblack.py: word-wrap with the possibly shrunk
font, then draw at most `h // line_height` lines. -/
def wrapLines34Black (font font20 : Font) (p : PngPoint) (text : String) : List Op :=
  let f := font34sel font font20 (1335 - p.x) text
  let lines := wrapWordsBlack f (1335 - p.x) text
  ((lines.take (p.h / (f.ayHeight + 2))).enum).map (fun pr =>
    Op.text p.x (p.y + pr.1 * (f.ayHeight + 2)) pr.2)

/-- Block-35 drawing of flippedblack.py: word-wrap with the standard font, then
draw at most `h // line_height` lines starting at the (possibly shifted) `y`. -/
def wrapLines35Black (font : Font) (x y h : Nat) (text : String) : List Op :=
  let lines := wrapWordsBlack font (1335 - x) text
  ((lines.take (h / (font.ayHeight + 2))).enum).map (fun pr =>
    Op.text x (y + pr.1 * (font.ayHeight + 2)) pr.2)

/-- The seven positionally picked characters of the FAN extraction:
`cleaned[1] + cleaned[2] + cleaned[4] + cleaned[5] + cleaned[8] + cleaned[9] +
cleaned[13]` (always used under a `length >= 14` guard, so the default is
irrelevant). -/
def fanDigits (cleaned : List Char) : String :=
  String.mk [cleaned.getD 1 'a', cleaned.getD 2 'a', cleaned.getD 4 'a',
    cleaned.getD 5 'a', cleaned.getD 8 'a', cleaned.getD 9 'a', cleaned.getD 13 'a']

/-- The block-36 FAN handling shared by all three variants: if block 36 exists,
strip the text, delete space characters (`replace(" ", "")` removes only
U+0020), and when at least 14 characters remain draw the picked characters at
(1677, 511); otherwise draw nothing. -/
def fanOps (blocks : List String) : List Op :=
  if 36 < blocks.length then
    if 14 ≤ ((pyStrip (blocks.getD 36 "")).toList.filter (fun c => c != ' ')).length
    then [Op.text 1677 511
      (fanDigits ((pyStrip (blocks.getD 36 "")).toList.filter (fun c => c != ' ')))]
    else []
  else []

/-- Ops emitted for one `block_to_png_mapping` entry by the flippedcolor.py
writer, given the current (possibly mutated) y-origin `y35` of the block-35
table entry. -/
def entryOpsColor (font : Font) (blocks : List String) (y35 idx : Nat) (p : PngPoint) :
    List Op :=
  if idx < blocks.length then
    if pyStrip (blocks.getD idx "") = "" then []
    else if idx = 34 then linesOps34Color font p (pyStrip (blocks.getD idx ""))
    else if idx = 35 then linesOps35Color font p.x y35 (pyStrip (blocks.getD idx ""))
    else if idx = 29 ∨ idx = 30 ∨ idx = 31 then
      [Op.text p.x p.y (String.intercalate "|" (pySplitWs (pyStrip (blocks.getD idx ""))))]
    else [Op.text p.x p.y (pyStrip (blocks.getD idx ""))]
  else []

/-- Ops emitted for one `block_to_png_mapping` entry by the flippedblack.py
writer. -/
def entryOpsBlack (font font20 : Font) (blocks : List String) (y35 idx : Nat)
    (p : PngPoint) : List Op :=
  if idx < blocks.length then
    if pyStrip (blocks.getD idx "") = "" then []
    else if idx = 34 then wrapLines34Black font font20 p (pyStrip (blocks.getD idx ""))
    else if idx = 35 then wrapLines35Black font p.x y35 p.h (pyStrip (blocks.getD idx ""))
    else if idx = 29 ∨ idx = 30 ∨ idx = 31 then
      [Op.text p.x p.y (String.intercalate "|" (pySplitWs (pyStrip (blocks.getD idx ""))))]
    else [Op.text p.x p.y (pyStrip (blocks.getD idx ""))]
  else []

/-- Ops emitted for one `block_to_png_mapping` entry by the swapblack.py
writer: same character wrapping as flippedcolor.py, but block 35 always uses
the table's fixed y (no shifting). -/
def entryOpsSwap (font : Font) (blocks : List String) (idx : Nat) (p : PngPoint) :
    List Op :=
  if idx < blocks.length then
    if pyStrip (blocks.getD idx "") = "" then []
    else if idx = 34 then linesOps34Color font p (pyStrip (blocks.getD idx ""))
    else if idx = 35 then linesOps35Color font p.x p.y (pyStrip (blocks.getD idx ""))
    else if idx = 29 ∨ idx = 30 ∨ idx = 31 then
      [Op.text p.x p.y (String.intercalate "|" (pySplitWs (pyStrip (blocks.getD idx ""))))]
    else [Op.text p.x p.y (pyStrip (blocks.getD idx ""))]
  else []

/-- The in-place mutation of the block-35 table entry performed while block 34
is processed (flippedcolor.py and flippedblack.py): when block 34 is in range
and its stripped text is non-empty, set the entry's y to 385 if the text
contains a newline and restore 362 otherwise; in every other case the entry
keeps its current value. -/
def nextY35 (blocks : List String) (y idx : Nat) : Nat :=
  if idx < blocks.length then
    if pyStrip (blocks.getD idx "") = "" then y
    else if idx = 34 then
      (if (pyStrip (blocks.getD idx "")).toList.contains '\n' then 385 else 362)
    else y
  else y

/-- Writer state while iterating the table: ops emitted so far and the current
y-origin stored in the (mutable) block-35 table entry. -/
structure WSt where
  ops : List Op
  y35 : Nat

/-- One iteration of the flippedcolor.py `write_pdf_blocks_on_template` loop. -/
def stepColor (font : Font) (blocks : List String) (st : WSt) (e : Nat × PngPoint) : WSt :=
  ⟨st.ops ++ entryOpsColor font blocks st.y35 e.1 e.2, nextY35 blocks st.y35 e.1⟩

/-- `write_pdf_blocks_on_template` of flippedcolor.py (drawing effects only):
iterate the table in order, then run the FAN extraction for block 36. -/
def write_pdf_blocks_color (font : Font) (blocks : List String) : List Op :=
  (block_to_png_mapping.foldl (stepColor font blocks) ⟨[], 362⟩).ops ++ fanOps blocks

/-- One iteration of the flippedblack.py `write_pdf_blocks_on_template` loop. -/
def stepBlack (font font20 : Font) (blocks : List String) (st : WSt)
    (e : Nat × PngPoint) : WSt :=
  ⟨st.ops ++ entryOpsBlack font font20 blocks st.y35 e.1 e.2, nextY35 blocks st.y35 e.1⟩

/-- `write_pdf_blocks_on_template` of flippedblack.py (drawing effects only). -/
def write_pdf_blocks_black (font font20 : Font) (blocks : List String) : List Op :=
  (block_to_png_mapping.foldl (stepBlack font font20 blocks) ⟨[], 362⟩).ops ++
    fanOps blocks

/-- One iteration of the swapblack.py `write_pdf_blocks_on_template` loop (no
table mutation, so the state is just the op list). -/
def stepSwap (font : Font) (blocks : List String) (ops : List Op) (e : Nat × PngPoint) :
    List Op :=
  ops ++ entryOpsSwap font blocks e.1 e.2

/-- `write_pdf_blocks_on_template` of swapblack.py (drawing effects only). -/
def write_pdf_blocks_swap (font : Font) (blocks : List String) : List Op :=
  block_to_png_mapping.foldl (stepSwap font blocks) [] ++ fanOps blocks

/-! ### Date extraction (regular expressions specialised to their patterns)

The regex fragments used by the two `extract_dates_from_image` variants are
implemented as direct scanners.  Every `\s*` in those patterns is immediately
followed by a literal or character class that matches no whitespace character,
so greedy maximal munch (`List.dropWhile pyIsSpace`) is exact: any shorter
match of `\s*` leaves a whitespace character where a non-whitespace one is
required, hence backtracking can never succeed where maximal munch fails. -/

/-- Match `\d{2}/\d{2}/\d{2}` at the head; return the 8 matched characters and
the rest. -/
def matchDate8 (l : List Char) : Option (List Char × List Char) :=
  match l with
  | d1 :: d2 :: '/' :: d3 :: d4 :: '/' :: d5 :: d6 :: rest =>
    if d1.isDigit && d2.isDigit && d3.isDigit && d4.isDigit && d5.isDigit && d6.isDigit
    then some ([d1, d2, '/', d3, d4, '/', d5, d6], rest) else none
  | _ => none

/-- Match `\d{4}/\d{2}/\d{2}` at the head; return the 10 matched characters and
the rest. -/
def matchDate10 (l : List Char) : Option (List Char × List Char) :=
  match l with
  | a :: b :: c :: d :: '/' :: e :: f :: '/' :: g :: h :: rest =>
    if a.isDigit && b.isDigit && c.isDigit && d.isDigit && e.isDigit && f.isDigit &&
        g.isDigit && h.isDigit
    then some ([a, b, c, d, '/', e, f, '/', g, h], rest) else none
  | _ => none

/-- Match `\d{4}/[A-Za-z]{3}/\d{2}` at the head; return the 11 matched
characters and the rest. -/
def matchEng11 (l : List Char) : Option (List Char × List Char) :=
  match l with
  | a :: b :: c :: d :: '/' :: l1 :: l2 :: l3 :: '/' :: e :: f :: rest =>
    if a.isDigit && b.isDigit && c.isDigit && d.isDigit && l1.isAlpha && l2.isAlpha &&
        l3.isAlpha && e.isDigit && f.isDigit
    then some ([a, b, c, d, '/', l1, l2, l3, '/', e, f], rest) else none
  | _ => none

/-- Match `2\s*0\s*(\d{2}/\d{2}/\d{2})` at the head (the OCR fix-up pattern of
flippedblack.py); return the replacement `"20" + group1` and the rest after the
whole match. -/
def match20At (l : List Char) : Option (List Char × List Char) :=
  match l with
  | '2' :: rest =>
    match rest.dropWhile pyIsSpace with
    | '0' :: r2 =>
      match matchDate8 (r2.dropWhile pyIsSpace) with
      | some (g, rest2) => some ('2' :: '0' :: g, rest2)
      | none => none
    | _ => none
  | _ => none

/-- `re.sub` scan for `match20At`, replacing every non-overlapping leftmost
occurrence.  `fuel` is initialised to the list length; every step consumes at
least one character, so the fuel never runs out and the `fuel = 0` branch is
unreachable. -/
def sub20Fuel (fuel : Nat) (l : List Char) : List Char :=
  match fuel, l with
  | 0, rest => rest
  | _ + 1, [] => []
  | n + 1, c :: cs =>
    match match20At (c :: cs) with
    | some (rep, rest) => rep ++ sub20Fuel n rest
    | none => c :: sub20Fuel n cs

/-- `re.sub(r"2\s*0\s*(\d{2}/\d{2}/\d{2})", r"20\1", line)` of flippedblack.py. -/
def sub20str (s : String) : String :=
  String.mk (sub20Fuel s.toList.length s.toList)

/-- Match the full flippedblack.py date pattern
`(\d{4}/\d{2}/\d{2})\s*\|\s*(\d{4}/[A-Za-z]{3}/\d{2})` at the head, returning
the two groups. -/
def matchPipeAt (l : List Char) : Option (String × String) :=
  match matchDate10 l with
  | some (g1, r) =>
    match r.dropWhile pyIsSpace with
    | '|' :: r2 =>
      match matchEng11 (r2.dropWhile pyIsSpace) with
      | some (g2, _) => some (String.mk g1, String.mk g2)
      | none => none
    | _ => none
  | none => none

/-- `re.search` for `matchPipeAt`: leftmost match. -/
def searchPipe (l : List Char) : Option (String × String) :=
  match l with
  | [] => none
  | c :: cs =>
    match matchPipeAt (c :: cs) with
    | some p => some p
    | none => searchPipe cs

/-- Case-insensitive literal match: `lit` is given in lowercase; returns the
rest on success. -/
def matchLit (lit l : List Char) : Option (List Char) :=
  match lit, l with
  | [], rest => some rest
  | _ :: _, [] => none
  | c :: cs, d :: rest => if d.toLower = c then matchLit cs rest else none

/-- Match `Date\s*of\s*Issue` (ignorecase) at the head. -/
def matchDoiAt (l : List Char) : Bool :=
  match matchLit ['d', 'a', 't', 'e'] l with
  | some r =>
    match matchLit ['o', 'f'] (r.dropWhile pyIsSpace) with
    | some r2 => (matchLit ['i', 's', 's', 'u', 'e'] (r2.dropWhile pyIsSpace)).isSome
    | none => false
  | none => false

/-- `re.search(r"Date\s*of\s*Issue", line, re.IGNORECASE)` as a Boolean. -/
def hasDoi (l : List Char) : Bool :=
  match l with
  | [] => false
  | c :: cs => matchDoiAt (c :: cs) || hasDoi cs

/-- `re.sub(r"[^\w:/]", "", line)` of flippedcolor.py: keep word characters
(alphanumeric or underscore — the inputs are ASCII), colon and slash. -/
def cleanColor (l : List Char) : List Char :=
  l.filter (fun c => c.isAlphanum || c = '_' || c = ':' || c = '/')

/-- The last start position (greedy `.*`) at which `matchEng11` succeeds,
returning its group. -/
def lastEng11From (l : List Char) : Option String :=
  match l with
  | [] => none
  | c :: cs =>
    match lastEng11From cs with
    | some g => some g
    | none =>
      match matchEng11 (c :: cs) with
      | some (g, _) => some (String.mk g)
      | none => none

/-- `re.search(r"(\d{4}/\d{2}/\d{2}).*(\d{4}/[A-Za-z]{3}/\d{2})", l)` with
leftmost-match, greedy-`.*` semantics: group 1 at the smallest start position
admitting a full match, group 2 at the last possible position after it. -/
def searchDotStar (l : List Char) : Option (String × String) :=
  match l with
  | [] => none
  | c :: cs =>
    match matchDate10 (c :: cs) with
    | some (g1, r) =>
      match lastEng11From r with
      | some g2 => some (String.mk g1, g2)
      | none => searchDotStar cs
    | none => searchDotStar cs

/-- `extract_dates_from_image` of flippedblack.py.  The argument is the oracle
outcome of `Image.open` + `pytesseract.image_to_string`: `.error` when the
library call raises (caught by the handler, which returns `(None, None)`),
`.ok text` otherwise. -/
def extract_dates_black (ocr : Except Unit String) : Option String × Option String :=
  match ocr with
  | .error _ => (none, none)
  | .ok text =>
    let lines := (splitlines text).filter (fun l => pyStrip l != "")
    match lines.getLast? with
    | none => (none, none)
    | some last =>
      match searchPipe (sub20str last).toList with
      | some (d1, d2) => (some d1, some d2)
      | none => (none, none)

/-- `extract_dates_from_image` of flippedcolor.py: find the first line matching
`Date\s*of\s*Issue` (ignorecase), delete every character outside `[\w:/]`, then
search the two date groups separated by `.*`. -/
def extract_dates_color (ocr : Except Unit String) : Option String × Option String :=
  match ocr with
  | .error _ => (none, none)
  | .ok text =>
    let lines := ((splitlines text).map pyStrip).filter (fun l => l != "")
    if lines = [] then (none, none)
    else
      match lines.find? (fun l => hasDoi l.toList) with
      | none => (none, none)
      | some doi =>
        match searchDotStar (cleanColor doi.toList) with
        | some (d1, d2) => (some d1, some d2)
        | none => (none, none)

/-- `process_dates_from_image` of flippedcolor.py (drawing effects appended to
the canvas op list): substitute the literal placeholders for falsy extraction
results, then draw both strings as vertical text; the surrounding `try/except`
returns the canvas in every case, so the function is total and always returns
the canvas with its appended ops. -/
def process_dates_color (canvas : List Op) (ocr : Except Unit String) : List Op :=
  let p := extract_dates_color ocr
  let eth := pyOrStr p.1 "YYYY/MM/DD"
  let eng := pyOrStr p.2 "YYYY/Mon/DD"
  canvas ++ [Op.vtext 17 339 eth, Op.vtext 17 98 eng]

/-! ### Region OCR and overlay compositor -/

/-- Which of the two source rasters a region reads from. -/
inductive SrcTag where
  | img3
  | img4
  deriving DecidableEq, Repr

/-- One entry of the `regions` table of `process_image3_image4_with_ocr`. -/
inductive Region where
  | ocrReg (src : SrcTag) (snap : Nat × Nat × Nat × Nat) (px py : Nat)
  | rotReg (src : SrcTag) (snap : Nat × Nat × Nat × Nat) (px py : Nat)
  | pasteReg (src : SrcTag) (snap : Nat × Nat × Nat × Nat) (px py pw ph : Nat)
  deriving DecidableEq, Repr

/-- OCR oracle: the (stripped-later) `pytesseract` result for a crop of the
given source at the given snapshot rectangle, plain or after the quarter-turn
rotation. -/
structure OcrEnv where
  ocrPlain : SrcTag → Nat × Nat × Nat × Nat → String
  ocrRotated : SrcTag → Nat × Nat × Nat × Nat → String

/-- One iteration of the region loop: `ocr` draws the stripped text unless it
is empty (silently skipped, no placeholder); `ocr_rotated` pastes the rotated
text buffer unless the stripped text is empty; `paste` always pastes the
resized crop. -/
def procRegion (env : OcrEnv) (ops : List Op) (r : Region) : List Op :=
  match r with
  | .ocrReg src snap px py =>
    let t := pyStrip (env.ocrPlain src snap)
    if t = "" then ops else ops ++ [Op.text px py t]
  | .rotReg src snap px py =>
    let t := pyStrip (env.ocrRotated src snap)
    if t = "" then ops else ops ++ [Op.vtext px py t]
  | .pasteReg _ _ px py pw ph => ops ++ [Op.paste px py pw ph]

/-- `process_image3_image4_with_ocr` region loop over a region table. -/
def processRegions (env : OcrEnv) (canvas : List Op) (rs : List Region) : List Op :=
  rs.foldl (procRegion env) canvas

/-- The `regions` table of flippedcolor.py (and, identically, flippedblack.py). -/
def colorRegions : List Region :=
  [ .ocrReg .img3 (231, 2451, 957, 111) 355 385,
    .pasteReg .img3 (525, 2628, 825, 285) 417 439 220 75,
    .pasteReg .img4 (1248, 2052, 546, 96) 1056 462 161 30 ]

/-- The `regions` table of swapblack.py (adds the two `ocr_rotated` side-strip
regions). -/
def swapRegions : List Region :=
  [ .ocrReg .img3 (231, 2451, 957, 111) 355 385,
    .pasteReg .img3 (525, 2628, 825, 285) 417 439 220 75,
    .rotReg .img3 (1778, 1128, 56, 450) 17 339,
    .rotReg .img3 (1778, 524, 62, 552) 17 98,
    .pasteReg .img4 (1248, 2052, 546, 96) 1056 462 161 30 ]

/-! ### Raster extractor and main pipeline driver -/

/-- The scratch directory used by `extract_images`. -/
def tempDir : String := ".temp"

/-- `os.path.join(temp_dir, f"image_{i}.png")`. -/
def imgPath (i : Nat) : String :=
  tempDir ++ "/image_" ++ toString i ++ ".png"

/-- Oracle environment for `extract_images`: whether `pdf_doc[0]` /
`get_images` succeed, how many embedded images page 0 reports, and whether the
pixmap decode/save for the 1-based index `i` raises. -/
structure ExtractEnv where
  pageOk : Bool
  rawCount : Nat
  failAt : Nat → Bool

/-- Observable outcome of `extract_images`: the `os.makedirs` side effect and
the returned path list. -/
structure ExtractResult where
  mkdirCalled : Bool
  returned : List String
  deriving DecidableEq, Repr

/-- The extraction loop over `raw_images[:5]` starting at 1-based index `i`
with `n` entries left: on the first failing index the exception aborts the
whole loop (it is caught outside the `for`), keeping only the paths persisted
so far.  `append` runs after `save`, so a failing index contributes nothing. -/
def extractLoop (failAt : Nat → Bool) (i n : Nat) : List String :=
  match n with
  | 0 => []
  | n + 1 => if failAt i then [] else imgPath i :: extractLoop failAt (i + 1) n

/-- `extract_images` (identical in all three variants): `os.makedirs` always
runs first; the `try/except` makes the function total, returning the paths
accumulated before the first failure. -/
def extract_images (env : ExtractEnv) : ExtractResult :=
  if env.pageOk then ⟨true, extractLoop env.failAt 1 (min env.rawCount 5)⟩
  else ⟨true, []⟩

/-- Oracle environment for `main_process` of flippedcolor.py: success of
`fitz.open`, the extraction environment, whether `process_image1_and_2` and
`process_image3_image4_with_ocr` return a canvas (vs. `None` from their
handlers), whether the merged save succeeds, and whether the whole
`flip_and_place_on_a4` step completes (it reads the merged file back and has
its own `try/except`). -/
structure MainEnv where
  openOk : Bool
  ex : ExtractEnv
  step2ok : Bool
  step3ok : Bool
  saveOk : Bool
  flipOk : Bool

/-- Which of the two output files `main_process` produced. -/
structure MainResult where
  savedMerged : Bool
  savedA4 : Bool
  deriving DecidableEq, Repr

/-- `main_process` of flippedcolor.py, observed through its output files: the
guard `len(images) < 4` returns before any canvas work; a `None` canvas from
step 2 or step 3 returns early; `write_pdf_blocks_on_template` and
`process_dates_from_image` always return the canvas and cannot abort. -/
def main_process_color (env : MainEnv) : MainResult :=
  if env.openOk then
    if (extract_images env.ex).returned.length < 4 then ⟨false, false⟩
    else if env.step2ok then
      if env.step3ok then ⟨env.saveOk, env.flipOk⟩
      else ⟨false, false⟩
    else ⟨false, false⟩
  else ⟨false, false⟩

/-! ### Concrete instances used by counterexamples and witnesses -/

/-- A concrete font with affine metrics: every character 10 pixels wide,
`"Ay"` box 20 pixels tall (so line height is 22). -/
def cFont : Font := ⟨fun s => 10 * s.length, 20, rfl⟩

/-- A 40-character word: 400 pixels wide under `cFont`, wider than the
374-pixel budget of the wrap blocks. -/
def wideWord : String := String.mk (List.replicate 40 'a')

/-- Text-block list whose block 36 is the spec's FAN example string. -/
def blocksC2 : List String := List.replicate 36 "" ++ ["A1B2C3D4E5F6G7"]

/-- Text-block list whose block 35 is a single over-wide word. -/
def blocksC3 : List String := List.replicate 35 "" ++ [wideWord]

/-- Text-block list whose block 34 holds five newline-separated lines. -/
def blocksC4 : List String := List.replicate 34 "" ++ ["a\nb\nc\nd\ne"]

/-- Text-block list with a newline in block 34 and a short block 35. -/
def blocksC5 : List String := List.replicate 34 "" ++ ["ab\ncd", "z"]

/-- Text-block list whose block 36 contains an internal tab: 15 characters
after space removal, 14 after removing all whitespace. -/
def blocksC6 : List String := List.replicate 36 "" ++ ["AB\tCDEFGHIJKLMN"]

/-- Formalisation of claim C6's wording for comparison with the code: block
36's text stripped of ALL whitespace (not merely space characters) before the
positional pick. -/
def fanOpsClaimC6 (blocks : List String) : List Op :=
  if 36 < blocks.length then
    if 14 ≤ ((blocks.getD 36 "").toList.filter (fun c => !(pyIsSpace c))).length
    then [Op.text 1677 511
      (fanDigits ((blocks.getD 36 "").toList.filter (fun c => !(pyIsSpace c))))]
    else []
  else []

/-- A pipeline environment whose PDF opens fine but whose first page yields
only two raster images. -/
def envC1 : MainEnv := ⟨true, ⟨true, 2, fun _ => false⟩, true, true, true, true⟩

/-- An extraction environment where decoding the fifth image raises. -/
def envFailAt5 : ExtractEnv := ⟨true, 5, fun i => i == 5⟩

/-- An OCR environment in which every recognition result is empty. -/
def envC9 : OcrEnv := ⟨fun _ _ => "", fun _ _ => ""⟩

/-! ## Helper lemmas -/

/-- The character-greedy wrap of block 34 never accumulates a string wider than
`maxw` when the accumulator starts within the budget. -/
theorem wrapChars34_le (font : Font) (maxw : Nat) :
    ∀ (l : List Char) (acc : String), font.width acc ≤ maxw →
      font.width (wrapChars34 font maxw acc l) ≤ maxw := by
  intro l
  induction l with
  | nil => intro acc h; simpa [wrapChars34] using h
  | cons c cs ih =>
    intro acc h
    simp only [wrapChars34]
    split
    · exact h
    · next hw => exact ih _ (Nat.le_of_not_lt hw)

/-- The character-greedy wrap of block 35 never lets `x +` width reach past
1335 when the accumulator starts within the budget. -/
theorem wrapChars35_le (font : Font) (x : Nat) :
    ∀ (l : List Char) (acc : String), x + font.width acc ≤ 1335 →
      x + font.width (wrapChars35 font x acc l) ≤ 1335 := by
  intro l
  induction l with
  | nil => intro acc h; simpa [wrapChars35] using h
  | cons c cs ih =>
    intro acc h
    simp only [wrapChars35]
    split
    · exact h
    · next hw => exact ih _ (Nat.le_of_not_lt hw)

/-- The extraction loop returns the image paths of an initial range of indices. -/
theorem extractLoop_exists (failAt : Nat → Bool) :
    ∀ (n i : Nat), ∃ k, k ≤ n ∧
      extractLoop failAt i n = (List.range' i k).map imgPath := by
  intro n
  induction n with
  | zero => intro i; exact ⟨0, Nat.le_refl 0, rfl⟩
  | succ m ih =>
    intro i
    by_cases hf : failAt i
    · exact ⟨0, Nat.zero_le _, by simp [extractLoop, hf]⟩
    · obtain ⟨k, hk, he⟩ := ih (i + 1)
      refine ⟨k + 1, by omega, ?_⟩
      rw [show List.range' i (k + 1) = i :: List.range' (i + 1) k from rfl]
      simp [extractLoop, hf, he]

/-! ## Claim theorems -/

/-- C2 counterexample: on the spec's own example string the code draws
`"1BC3E57"` (the characters at positions 1,2,4,5,8,9,13 of
`"A1B2C3D4E5F6G7"`), not the `"1BC4567"` stated by the claim. -/
theorem C2_counterexample :
    write_pdf_blocks_color cFont blocksC2 = [Op.text 1677 511 "1BC3E57"] ∧
    ("1BC3E57" : String) ≠ "1BC4567" :=
  ⟨by decide, by decide⟩

/-- C2 (amended): for a document whose block 36 cleans to
`"A1B2C3D4E5F6G7"`, every pipeline variant draws exactly one FAN op, the
string `"1BC3E57"` made of the characters at positions 1,2,4,5,8,9,13, at
(1677, 511). -/
theorem C2_fan_extraction :
    fanOps blocksC2 = [Op.text 1677 511 "1BC3E57"] ∧
    write_pdf_blocks_color cFont blocksC2 = [Op.text 1677 511 "1BC3E57"] ∧
    write_pdf_blocks_black cFont cFont blocksC2 = [Op.text 1677 511 "1BC3E57"] ∧
    write_pdf_blocks_swap cFont blocksC2 = [Op.text 1677 511 "1BC3E57"] :=
  ⟨by decide, by decide, by decide, by decide⟩

/-- C7 counterexample: the flippedcolor.py variant of date extraction returns
`(None, None)` on OCR output whose relevant (only) line is exactly
`"2 025/01/15 | 2023/Jan/15"`, because that variant selects the line by the
`Date of Issue` label, which is absent. -/
theorem C7_counterexample :
    extract_dates_color (.ok "2 025/01/15 | 2023/Jan/15") = (none, none) ∧
    ((none, none) : Option String × Option String) ≠
      (some "2025/01/15", some "2023/Jan/15") :=
  ⟨by decide, by decide⟩

/-- C7 (amended): in flippedblack.py the last non-empty OCR line
`"2 025/01/15 | 2023/Jan/15"` is normalised by the `2\s*0\s*` fix-up to
`"2025/01/15 | 2023/Jan/15"` and the two dates are extracted; in
flippedcolor.py the same dates are extracted from a `Date of Issue`-labelled
line via deletion of all non-`[\w:/]` characters instead. -/
theorem C7_date_extraction :
    sub20str "2 025/01/15 | 2023/Jan/15" = "2025/01/15 | 2023/Jan/15" ∧
    extract_dates_black (.ok "2 025/01/15 | 2023/Jan/15") =
      (some "2025/01/15", some "2023/Jan/15") ∧
    extract_dates_color (.ok "Date of Issue 2 025/01/15 | 2023/Jan/15") =
      (some "2025/01/15", some "2023/Jan/15") :=
  ⟨by decide, by decide, by decide⟩

/-- C4 counterexample: in flippedcolor.py a block-34 text of five
newline-separated lines produces five drawn lines although
`76 // line_height = 3`: the character-wrapping variants draw one line per
source line with no cap. -/
theorem C4_counterexample :
    write_pdf_blocks_color cFont blocksC4 =
      [Op.text 961 286 "a", Op.text 961 308 "b", Op.text 961 330 "c",
        Op.text 961 352 "d", Op.text 961 374 "e"] ∧
    76 / (cFont.ayHeight + 2) = 3 ∧
    76 / (cFont.ayHeight + 2) < (write_pdf_blocks_color cFont blocksC4).length :=
  ⟨by decide, by decide, by decide⟩

/-- C4 (amended): only flippedblack.py caps the number of drawn wrap lines to
`floor(h / line_height)` (blocks 34 and 35, with the line height of the font
actually selected); flippedcolor.py and swapblack.py draw exactly one line per
newline-separated source line, without any cap. -/
theorem C4_line_caps (font font20 : Font) (p : PngPoint) (x y h : Nat) (text : String) :
    (wrapLines34Black font font20 p text).length ≤
      p.h / ((font34sel font font20 (1335 - p.x) text).ayHeight + 2) ∧
    (wrapLines35Black font x y h text).length ≤ h / (font.ayHeight + 2) ∧
    (linesOps34Color font p text).length = (pySplitChar '\n' text).length ∧
    (linesOps35Color font x y text).length = (pySplitChar '\n' text).length := by
  refine ⟨?_, ?_, ?_, ?_⟩
  · simp only [wrapLines34Black, List.length_map, List.enum_length, List.length_take]
    exact Nat.min_le_left _ _
  · simp only [wrapLines35Black, List.length_map, List.enum_length, List.length_take]
    exact Nat.min_le_left _ _
  · simp [linesOps34Color]
  · simp [linesOps35Color]

/-- C3 counterexample: in flippedblack.py (word wrapping) a single 40-character
word in block 35 is drawn as a whole line of width 400 starting at x = 961,
crossing the right margin 1335. -/
theorem C3_counterexample :
    write_pdf_blocks_black cFont cFont blocksC3 = [Op.text 961 362 wideWord] ∧
    1335 < 961 + cFont.width wideWord :=
  ⟨by decide, by decide⟩

/-- C3 (amended): in the character-wrapping variants (flippedcolor.py and
swapblack.py, which share `linesOps34Color` / `linesOps35Color`), no line drawn
for block 34 or block 35 crosses x = 1335: destination x plus the line's
measured width is at most 1335.  The word-wrapping flippedblack.py variant
violates this for a single over-wide word. -/
theorem C3_margin (font : Font) (text : String) :
    (∀ x y s, Op.text x y s ∈ linesOps34Color font ⟨961, 286, 378, 76⟩ text →
      x + font.width s ≤ 1335) ∧
    (∀ y35 x y s, Op.text x y s ∈ linesOps35Color font 961 y35 text →
      x + font.width s ≤ 1335) := by
  constructor
  · intro x y s hm
    simp only [linesOps34Color, List.mem_map] at hm
    obtain ⟨pr, _, he⟩ := hm
    cases he
    have h := wrapChars34_le font (1335 - 961) pr.2.toList "" (by
      rw [font.width_empty]; exact Nat.zero_le _)
    omega
  · intro y35 x y s hm
    simp only [linesOps35Color, List.mem_map] at hm
    obtain ⟨pr, _, he⟩ := hm
    cases he
    exact wrapChars35_le font 961 pr.2.toList "" (by rw [font.width_empty]; omega)

/-- C3 witness: the margin theorem applied to a concrete font and text. -/
theorem C3_margin_witness :
    (Op.text 961 286 "hello" ∈ linesOps34Color cFont ⟨961, 286, 378, 76⟩ "hello") ∧
    961 + cFont.width "hello" ≤ 1335 :=
  ⟨by decide, (C3_margin cFont "hello").1 961 286 "hello" (by decide)⟩

/-- C1: whenever extraction yields fewer than 4 raster images, the
flippedcolor.py `main_process` returns with neither the merged nor the
A4-framed output saved (the model is a total function, so no exception escapes
the job boundary). -/
theorem C1_no_outputs (env : MainEnv)
    (h : (extract_images env.ex).returned.length < 4) :
    main_process_color env = ⟨false, false⟩ := by
  unfold main_process_color
  simp [h]

/-- C1 witness: a PDF that opens fine but yields only two images. -/
theorem C1_no_outputs_witness :
    (extract_images envC1.ex).returned.length < 4 ∧
    main_process_color envC1 = ⟨false, false⟩ :=
  ⟨by decide, C1_no_outputs envC1 (by decide)⟩

/-- C10: `extract_images` always creates the scratch directory and returns the
paths `".temp/image_1.png", ".temp/image_2.png", …` for an initial range of
1-based indices — a prefix of the first page's embedding order truncated at the
first failure, of length at most 5; in particular a decode error at the fifth
image still returns the first four paths. -/
theorem C10_extract_total (env : ExtractEnv) :
    (extract_images env).mkdirCalled = true ∧
    (∃ k, k ≤ min env.rawCount 5 ∧
      (extract_images env).returned = (List.range' 1 k).map imgPath) ∧
    (extract_images env).returned.length ≤ 5 ∧
    (extract_images envFailAt5).returned =
      [imgPath 1, imgPath 2, imgPath 3, imgPath 4] := by
  refine ⟨?_, ?_, ?_, by decide⟩
  · unfold extract_images
    split <;> rfl
  · unfold extract_images
    split
    · exact extractLoop_exists env.failAt (min env.rawCount 5) 1
    · exact ⟨0, Nat.zero_le _, rfl⟩
  · unfold extract_images
    split
    · obtain ⟨k, hk, he⟩ := extractLoop_exists env.failAt (min env.rawCount 5) 1
      have h5 : min env.rawCount 5 ≤ 5 := Nat.min_le_right _ _
      show (extractLoop env.failAt 1 (min env.rawCount 5)).length ≤ 5
      rw [he]
      simp only [List.length_map, List.length_range']
      omega
    · show ([] : List String).length ≤ 5
      simp

/-- Membership in a `procRegion` step comes from the incoming ops or from the
step's own drawing; a drawn `Op.text` can only come from an `ocr` region whose
stripped OCR result is non-empty. -/
theorem processRegions_no_text (env : OcrEnv) (rs : List Region)
    (hocr : ∀ src snap px py, Region.ocrReg src snap px py ∈ rs →
      pyStrip (env.ocrPlain src snap) = "") :
    ∀ canvas x y s, Op.text x y s ∈ processRegions env canvas rs →
      Op.text x y s ∈ canvas := by
  induction rs with
  | nil => intro canvas x y s hm; exact hm
  | cons r rest ih =>
    intro canvas x y s hm
    have hm2 : Op.text x y s ∈ procRegion env canvas r := by
      refine ih (fun src snap px py hmem =>
        hocr src snap px py (List.mem_cons_of_mem _ hmem)) _ x y s ?_
      exact hm
    cases r with
    | ocrReg src snap px py =>
      have he := hocr src snap px py (List.mem_cons_self _ _)
      simpa [procRegion, he] using hm2
    | rotReg src snap px py =>
      by_cases ht : pyStrip (env.ocrRotated src snap) = ""
      · simpa [procRegion, ht] using hm2
      · simp only [procRegion, if_neg ht, List.mem_append, List.mem_singleton] at hm2
        rcases hm2 with hm2 | hm2
        · exact hm2
        · exact absurd hm2 (by simp)
    | pasteReg src snap px py pw ph =>
      simp only [procRegion, List.mem_append, List.mem_singleton] at hm2
      rcases hm2 with hm2 | hm2
      · exact hm2
      · exact absurd hm2 (by simp)

/-- C9: when the stripped OCR result of the single `ocr`-mode region (snapshot
(231, 2451, 957, 111), destination (355, 385)) is empty, the region loop of
flippedcolor.py/flippedblack.py and of swapblack.py produces exactly the ops of
the remaining regions — no text is drawn for that region and no placeholder is
substituted — and starting from an empty canvas no `Op.text` is emitted at
all. -/
theorem C9_empty_ocr_skipped (env : OcrEnv) (canvas : List Op)
    (h : pyStrip (env.ocrPlain .img3 (231, 2451, 957, 111)) = "") :
    processRegions env canvas colorRegions = processRegions env canvas colorRegions.tail ∧
    processRegions env canvas swapRegions = processRegions env canvas swapRegions.tail ∧
    (∀ x y s, Op.text x y s ∉ processRegions env [] colorRegions) ∧
    (∀ x y s, Op.text x y s ∉ processRegions env [] swapRegions) := by
  refine ⟨?_, ?_, ?_, ?_⟩
  · simp [processRegions, colorRegions, procRegion, h]
  · simp [processRegions, swapRegions, procRegion, h]
  · intro x y s hm
    have := processRegions_no_text env colorRegions ?_ [] x y s hm
    · simp at this
    · intro src snap px py hmem
      simp only [colorRegions, List.mem_cons] at hmem
      rcases hmem with hmem | hmem | hmem | hmem
      · obtain ⟨h1, h2, h3, h4⟩ := Region.ocrReg.inj hmem
        rw [h1, h2]; exact h
      · exact absurd hmem (by simp)
      · exact absurd hmem (by simp)
      · exact absurd hmem (by simp)
  · intro x y s hm
    have := processRegions_no_text env swapRegions ?_ [] x y s hm
    · simp at this
    · intro src snap px py hmem
      simp only [swapRegions, List.mem_cons] at hmem
      rcases hmem with hmem | hmem | hmem | hmem | hmem | hmem
      · obtain ⟨h1, h2, h3, h4⟩ := Region.ocrReg.inj hmem
        rw [h1, h2]; exact h
      · exact absurd hmem (by simp)
      · exact absurd hmem (by simp)
      · exact absurd hmem (by simp)
      · exact absurd hmem (by simp)
      · exact absurd hmem (by simp)

/-- C9 witness: the skip theorem applied to the all-empty OCR environment. -/
theorem C9_empty_ocr_witness :
    pyStrip (envC9.ocrPlain .img3 (231, 2451, 957, 111)) = "" ∧
    processRegions envC9 [] colorRegions = processRegions envC9 [] colorRegions.tail :=
  ⟨by decide, (C9_empty_ocr_skipped envC9 [] (by decide)).1⟩

/-- C8: date extraction never escapes its boundary: a raising OCR call, empty
OCR text, or an unmatched pattern all yield `(None, None)`; the result is
always either `(None, None)` or a pair of extracted strings; and the
flippedcolor.py writer substitutes the literal placeholders for missing dates
and always returns the canvas (with its two vertical-text ops appended). -/
theorem C8_dates_never_raise (ocr : Except Unit String) (canvas : List Op) :
    extract_dates_black (.error ()) = (none, none) ∧
    extract_dates_color (.error ()) = (none, none) ∧
    (∀ t, ocr = .ok t →
      (splitlines t).filter (fun l => pyStrip l != "") = [] →
        extract_dates_black ocr = (none, none)) ∧
    (∀ t, ocr = .ok t →
      ((splitlines t).map pyStrip).filter (fun l => l != "") = [] →
        extract_dates_color ocr = (none, none)) ∧
    (extract_dates_black ocr = (none, none) ∨
      ∃ d1 d2, extract_dates_black ocr = (some d1, some d2)) ∧
    (extract_dates_color ocr = (none, none) ∨
      ∃ d1 d2, extract_dates_color ocr = (some d1, some d2)) ∧
    (extract_dates_color ocr = (none, none) →
      process_dates_color canvas ocr =
        canvas ++ [Op.vtext 17 339 "YYYY/MM/DD", Op.vtext 17 98 "YYYY/Mon/DD"]) ∧
    (∃ rest, process_dates_color canvas ocr = canvas ++ rest) := by
  refine ⟨rfl, rfl, ?_, ?_, ?_, ?_, ?_, ?_⟩
  · intro t ht hl
    subst ht
    simp [extract_dates_black, hl]
  · intro t ht hl
    subst ht
    simp [extract_dates_color, hl]
  · cases ocr with
    | error e => left; rfl
    | ok t =>
      simp only [extract_dates_black]
      split
      · left; rfl
      · split
        · right; exact ⟨_, _, rfl⟩
        · left; rfl
  · cases ocr with
    | error e => left; rfl
    | ok t =>
      simp only [extract_dates_color]
      split
      · left; rfl
      · split
        · left; rfl
        · split
          · right; exact ⟨_, _, rfl⟩
          · left; rfl
  · intro h
    simp [process_dates_color, h, pyOrStr]
  · exact ⟨_, rfl⟩

/-- C8 witness: empty OCR text makes the color extraction return
`(None, None)` and the writer draws both placeholders. -/
theorem C8_dates_witness :
    ((splitlines "").map pyStrip).filter (fun l => l != "") = [] ∧
    extract_dates_color (.ok "") = (none, none) ∧
    process_dates_color [] (.ok "") =
      [] ++ [Op.vtext 17 339 "YYYY/MM/DD", Op.vtext 17 98 "YYYY/Mon/DD"] := by
  refine ⟨by decide, ?_, ?_⟩
  · exact (C8_dates_never_raise (.ok "") []).2.2.2.1 "" rfl (by decide)
  · exact (C8_dates_never_raise (.ok "") []).2.2.2.2.2.2.1
      ((C8_dates_never_raise (.ok "") []).2.2.2.1 "" rfl (by decide))

/-- Threading the y-mutation through the table fold. -/
theorem foldl_wst_y (f : WSt → (Nat × PngPoint) → WSt)
    (g : Nat → (Nat × PngPoint) → Nat)
    (hf : ∀ st e, (f st e).y35 = g st.y35 e) :
    ∀ (es : List (Nat × PngPoint)) (st : WSt),
      (es.foldl f st).y35 = es.foldl g st.y35 := by
  intro es
  induction es with
  | nil => intro st; rfl
  | cons e rest ih =>
    intro st
    rw [List.foldl_cons, List.foldl_cons, ih, hf]

/-- Entries other than 34 never mutate the block-35 y-origin. -/
theorem nextY35_ne (blocks : List String) (idx : Nat) (h : idx ≠ 34) (y : Nat) :
    nextY35 blocks y idx = y := by
  unfold nextY35
  by_cases h1 : idx < blocks.length
  · rw [if_pos h1]
    by_cases h2 : pyStrip (blocks.getD idx "") = ""
    · rw [if_pos h2]
    · rw [if_neg h2, if_neg h]
  · rw [if_neg h1]

/-- Processing an in-range block 34 from the initial table value 362 leaves the
block-35 y-origin at 385 exactly when block 34's stripped text contains a
newline (an empty stripped text contains none and also leaves 362). -/
theorem nextY35_34 (blocks : List String) (h34 : 34 < blocks.length) :
    nextY35 blocks 362 34 =
      if (pyStrip (blocks.getD 34 "")).toList.contains '\n' then 385 else 362 := by
  unfold nextY35
  rw [if_pos h34]
  by_cases ht : pyStrip (blocks.getD 34 "") = ""
  · rw [if_pos ht, ht]
    decide
  · rw [if_neg ht, if_pos rfl]

/-- The entry ops of block 35 in flippedcolor.py, when in range and non-empty. -/
theorem entryOpsColor_35 (font : Font) (blocks : List String) (y35 : Nat) (p : PngPoint)
    (h : 35 < blocks.length) (hne : pyStrip (blocks.getD 35 "") ≠ "") :
    entryOpsColor font blocks y35 35 p =
      linesOps35Color font p.x y35 (pyStrip (blocks.getD 35 "")) := by
  unfold entryOpsColor
  rw [if_pos h, if_neg hne]
  simp

/-- The entry ops of block 35 in flippedblack.py, when in range and non-empty. -/
theorem entryOpsBlack_35 (font font20 : Font) (blocks : List String) (y35 : Nat)
    (p : PngPoint) (h : 35 < blocks.length) (hne : pyStrip (blocks.getD 35 "") ≠ "") :
    entryOpsBlack font font20 blocks y35 35 p =
      wrapLines35Black font p.x y35 p.h (pyStrip (blocks.getD 35 "")) := by
  unfold entryOpsBlack
  rw [if_pos h, if_neg hne]
  simp

/-- The entry ops of block 35 in swapblack.py, when in range and non-empty:
always drawn at the table's fixed y. -/
theorem entryOpsSwap_35 (font : Font) (blocks : List String) (p : PngPoint)
    (h : 35 < blocks.length) (hne : pyStrip (blocks.getD 35 "") ≠ "") :
    entryOpsSwap font blocks 35 p =
      linesOps35Color font p.x p.y (pyStrip (blocks.getD 35 "")) := by
  unfold entryOpsSwap
  rw [if_pos h, if_neg hne]
  simp

/-- C5 (amended): in flippedcolor.py and flippedblack.py, whenever blocks 34
and 35 are drawable, block 35's lines are drawn starting at y = 385 exactly
when block 34's stripped text contains an explicit newline and at the default
y = 362 otherwise (the table entry is mutated while block 34 is processed,
before block 35 is drawn, in table order — reflected here by the fold order);
swapblack.py never shifts: block 35 is always drawn starting at y = 362. -/
theorem C5_block35_shift (font font20 : Font) (blocks : List String)
    (h35 : 35 < blocks.length)
    (hne : pyStrip (blocks.getD 35 "") ≠ "") :
    (∃ pre post, write_pdf_blocks_color font blocks =
      pre ++ linesOps35Color font 961
        (if (pyStrip (blocks.getD 34 "")).toList.contains '\n' then 385 else 362)
        (pyStrip (blocks.getD 35 "")) ++ post) ∧
    (∃ pre post, write_pdf_blocks_black font font20 blocks =
      pre ++ wrapLines35Black font 961
        (if (pyStrip (blocks.getD 34 "")).toList.contains '\n' then 385 else 362) 82
        (pyStrip (blocks.getD 35 "")) ++ post) ∧
    (∃ pre post, write_pdf_blocks_swap font blocks =
      pre ++ linesOps35Color font 961 362 (pyStrip (blocks.getD 35 "")) ++ post) := by
  have h34 : 34 < blocks.length := by omega
  refine ⟨?_, ?_, ?_⟩
  · unfold write_pdf_blocks_color
    rw [show block_to_png_mapping =
      [((29 : Nat), (⟨355, 268, 200, 30⟩ : PngPoint)), (30, ⟨355, 324, 200, 30⟩),
        (31, ⟨960, 146, 300, 30⟩), (32, ⟨960, 67, 300, 30⟩), (33, ⟨960, 200, 300, 30⟩),
        (34, ⟨961, 286, 378, 76⟩)] ++
      ((35 : Nat), (⟨961, 362, 377, 82⟩ : PngPoint)) :: [(37, ⟨355, 158, 200, 30⟩)]
      from rfl]
    rw [List.foldl_append, List.foldl_cons, List.foldl_cons, List.foldl_nil]
    have hAy : (List.foldl (stepColor font blocks) ⟨[], 362⟩
        [((29 : Nat), (⟨355, 268, 200, 30⟩ : PngPoint)), (30, ⟨355, 324, 200, 30⟩),
          (31, ⟨960, 146, 300, 30⟩), (32, ⟨960, 67, 300, 30⟩), (33, ⟨960, 200, 300, 30⟩),
          (34, ⟨961, 286, 378, 76⟩)]).y35 =
        (if (pyStrip (blocks.getD 34 "")).toList.contains '\n' then 385 else 362) := by
      rw [foldl_wst_y (stepColor font blocks) (fun y e => nextY35 blocks y e.1)
        (fun st e => rfl)]
      show nextY35 blocks (nextY35 blocks (nextY35 blocks (nextY35 blocks (nextY35 blocks
        (nextY35 blocks 362 29) 30) 31) 32) 33) 34 = _
      rw [nextY35_ne blocks 29 (by decide), nextY35_ne blocks 30 (by decide),
        nextY35_ne blocks 31 (by decide), nextY35_ne blocks 32 (by decide),
        nextY35_ne blocks 33 (by decide), nextY35_34 blocks h34]
    refine ⟨(List.foldl (stepColor font blocks) ⟨[], 362⟩
        [((29 : Nat), (⟨355, 268, 200, 30⟩ : PngPoint)), (30, ⟨355, 324, 200, 30⟩),
          (31, ⟨960, 146, 300, 30⟩), (32, ⟨960, 67, 300, 30⟩), (33, ⟨960, 200, 300, 30⟩),
          (34, ⟨961, 286, 378, 76⟩)]).ops,
      entryOpsColor font blocks
        (if (pyStrip (blocks.getD 34 "")).toList.contains '\n' then 385 else 362)
        37 ⟨355, 158, 200, 30⟩ ++ fanOps blocks, ?_⟩
    simp only [stepColor]
    rw [hAy, nextY35_ne blocks 35 (by decide),
      entryOpsColor_35 font blocks _ ⟨961, 362, 377, 82⟩ h35 hne]
    simp [List.append_assoc]
  · unfold write_pdf_blocks_black
    rw [show block_to_png_mapping =
      [((29 : Nat), (⟨355, 268, 200, 30⟩ : PngPoint)), (30, ⟨355, 324, 200, 30⟩),
        (31, ⟨960, 146, 300, 30⟩), (32, ⟨960, 67, 300, 30⟩), (33, ⟨960, 200, 300, 30⟩),
        (34, ⟨961, 286, 378, 76⟩)] ++
      ((35 : Nat), (⟨961, 362, 377, 82⟩ : PngPoint)) :: [(37, ⟨355, 158, 200, 30⟩)]
      from rfl]
    rw [List.foldl_append, List.foldl_cons, List.foldl_cons, List.foldl_nil]
    have hAy : (List.foldl (stepBlack font font20 blocks) ⟨[], 362⟩
        [((29 : Nat), (⟨355, 268, 200, 30⟩ : PngPoint)), (30, ⟨355, 324, 200, 30⟩),
          (31, ⟨960, 146, 300, 30⟩), (32, ⟨960, 67, 300, 30⟩), (33, ⟨960, 200, 300, 30⟩),
          (34, ⟨961, 286, 378, 76⟩)]).y35 =
        (if (pyStrip (blocks.getD 34 "")).toList.contains '\n' then 385 else 362) := by
      rw [foldl_wst_y (stepBlack font font20 blocks) (fun y e => nextY35 blocks y e.1)
        (fun st e => rfl)]
      show nextY35 blocks (nextY35 blocks (nextY35 blocks (nextY35 blocks (nextY35 blocks
        (nextY35 blocks 362 29) 30) 31) 32) 33) 34 = _
      rw [nextY35_ne blocks 29 (by decide), nextY35_ne blocks 30 (by decide),
        nextY35_ne blocks 31 (by decide), nextY35_ne blocks 32 (by decide),
        nextY35_ne blocks 33 (by decide), nextY35_34 blocks h34]
    refine ⟨(List.foldl (stepBlack font font20 blocks) ⟨[], 362⟩
        [((29 : Nat), (⟨355, 268, 200, 30⟩ : PngPoint)), (30, ⟨355, 324, 200, 30⟩),
          (31, ⟨960, 146, 300, 30⟩), (32, ⟨960, 67, 300, 30⟩), (33, ⟨960, 200, 300, 30⟩),
          (34, ⟨961, 286, 378, 76⟩)]).ops,
      entryOpsBlack font font20 blocks
        (if (pyStrip (blocks.getD 34 "")).toList.contains '\n' then 385 else 362)
        37 ⟨355, 158, 200, 30⟩ ++ fanOps blocks, ?_⟩
    simp only [stepBlack]
    rw [hAy, nextY35_ne blocks 35 (by decide),
      entryOpsBlack_35 font font20 blocks _ ⟨961, 362, 377, 82⟩ h35 hne]
    simp [List.append_assoc]
  · unfold write_pdf_blocks_swap
    rw [show block_to_png_mapping =
      [((29 : Nat), (⟨355, 268, 200, 30⟩ : PngPoint)), (30, ⟨355, 324, 200, 30⟩),
        (31, ⟨960, 146, 300, 30⟩), (32, ⟨960, 67, 300, 30⟩), (33, ⟨960, 200, 300, 30⟩),
        (34, ⟨961, 286, 378, 76⟩)] ++
      ((35 : Nat), (⟨961, 362, 377, 82⟩ : PngPoint)) :: [(37, ⟨355, 158, 200, 30⟩)]
      from rfl]
    rw [List.foldl_append, List.foldl_cons, List.foldl_cons, List.foldl_nil]
    refine ⟨List.foldl (stepSwap font blocks) []
        [((29 : Nat), (⟨355, 268, 200, 30⟩ : PngPoint)), (30, ⟨355, 324, 200, 30⟩),
          (31, ⟨960, 146, 300, 30⟩), (32, ⟨960, 67, 300, 30⟩), (33, ⟨960, 200, 300, 30⟩),
          (34, ⟨961, 286, 378, 76⟩)],
      entryOpsSwap font blocks 37 ⟨355, 158, 200, 30⟩ ++ fanOps blocks, ?_⟩
    simp only [stepSwap]
    rw [entryOpsSwap_35 font blocks ⟨961, 362, 377, 82⟩ h35 hne]
    simp [List.append_assoc]

/-- C5 witness: on a document whose block 34 contains a newline, flippedcolor.py
draws block 35 starting at y = 385. -/
theorem C5_block35_shift_witness :
    (35 < blocksC5.length) ∧ (pyStrip (blocksC5.getD 35 "") ≠ "") ∧
    (∃ pre post, write_pdf_blocks_color cFont blocksC5 =
      pre ++ linesOps35Color cFont 961 385 "z" ++ post) := by
  refine ⟨by decide, by decide, ?_⟩
  exact (C5_block35_shift cFont cFont blocksC5 (by decide) (by decide)).1

/-- C5 counterexample: in swapblack.py a newline in block 34 does NOT shift
block 35: with block 34 = `"ab\ncd"` the block-35 line `"z"` is drawn at
y = 362 and no operation lands at y = 385. -/
theorem C5_counterexample :
    (pyStrip (blocksC5.getD 34 "")).toList.contains '\n' = true ∧
    write_pdf_blocks_swap cFont blocksC5 =
      [Op.text 961 286 "ab", Op.text 961 308 "cd", Op.text 961 362 "z"] ∧
    (write_pdf_blocks_swap cFont blocksC5).filter (fun op => Op.posY op == 385) = [] :=
  ⟨by decide, by decide, by decide⟩

/-- Every op drawn by the block-34 character wrapper sits at the entry's x. -/
theorem linesOps34Color_posX (font : Font) (p : PngPoint) (text : String) :
    ∀ op ∈ linesOps34Color font p text, Op.posX op = p.x := by
  intro op hm
  simp only [linesOps34Color, List.mem_map] at hm
  obtain ⟨pr, _, he⟩ := hm
  rw [← he]
  rfl

/-- Every op drawn by the block-35 character wrapper sits at its x argument. -/
theorem linesOps35Color_posX (font : Font) (x y : Nat) (text : String) :
    ∀ op ∈ linesOps35Color font x y text, Op.posX op = x := by
  intro op hm
  simp only [linesOps35Color, List.mem_map] at hm
  obtain ⟨pr, _, he⟩ := hm
  rw [← he]
  rfl

/-- Every op the flippedcolor.py writer emits for a table entry sits at that
entry's x-coordinate. -/
theorem entryOpsColor_posX (font : Font) (blocks : List String) (y35 idx : Nat)
    (p : PngPoint) : ∀ op ∈ entryOpsColor font blocks y35 idx p, Op.posX op = p.x := by
  intro op hm
  unfold entryOpsColor at hm
  split at hm
  · split at hm
    · simp at hm
    · split at hm
      · exact linesOps34Color_posX font p _ op hm
      · split at hm
        · exact linesOps35Color_posX font p.x y35 _ op hm
        · split at hm
          · simp at hm; rw [hm]; rfl
          · simp at hm; rw [hm]; rfl
  · simp at hm

/-- Every op the swapblack.py writer emits for a table entry sits at that
entry's x-coordinate. -/
theorem entryOpsSwap_posX (font : Font) (blocks : List String) (idx : Nat)
    (p : PngPoint) : ∀ op ∈ entryOpsSwap font blocks idx p, Op.posX op = p.x := by
  intro op hm
  unfold entryOpsSwap at hm
  split at hm
  · split at hm
    · simp at hm
    · split at hm
      · exact linesOps34Color_posX font p _ op hm
      · split at hm
        · exact linesOps35Color_posX font p.x p.y _ op hm
        · split at hm
          · simp at hm; rw [hm]; rfl
          · simp at hm; rw [hm]; rfl
  · simp at hm

/-- A flippedcolor.py table step only adds ops at the entry's x-coordinate. -/
theorem stepColor_mem (font : Font) (blocks : List String) :
    ∀ st e op, op ∈ (stepColor font blocks st e).ops →
      op ∈ st.ops ∨ Op.posX op = e.2.x := by
  intro st e op hm
  simp only [stepColor] at hm
  rcases List.mem_append.mp hm with h | h
  · exact Or.inl h
  · exact Or.inr (entryOpsColor_posX font blocks st.y35 e.1 e.2 op h)

/-- Folding table steps that only draw at their entry's x-coordinate never
produces an op at x = 1677 when no entry sits there. -/
theorem foldl_wst_posX (f : WSt → (Nat × PngPoint) → WSt)
    (hf : ∀ st e op, op ∈ (f st e).ops → op ∈ st.ops ∨ Op.posX op = e.2.x) :
    ∀ (es : List (Nat × PngPoint)) (st : WSt),
      (∀ e ∈ es, e.2.x ≠ 1677) → (∀ op ∈ st.ops, Op.posX op ≠ 1677) →
      ∀ op ∈ (es.foldl f st).ops, Op.posX op ≠ 1677 := by
  intro es
  induction es with
  | nil => intro st _ hst op hm; exact hst op hm
  | cons e rest ih =>
    intro st hes hst op hm
    refine ih (f st e) (fun e' he' => hes e' (List.mem_cons_of_mem _ he')) ?_ op hm
    intro op' hm'
    rcases hf st e op' hm' with h' | h'
    · exact hst op' h'
    · rw [h']; exact hes e (List.mem_cons_self _ _)

/-- swapblack.py analogue of `foldl_wst_posX`. -/
theorem foldl_swap_posX (font : Font) (blocks : List String) :
    ∀ (es : List (Nat × PngPoint)) (ops : List Op),
      (∀ e ∈ es, e.2.x ≠ 1677) → (∀ op ∈ ops, Op.posX op ≠ 1677) →
      ∀ op ∈ es.foldl (stepSwap font blocks) ops, Op.posX op ≠ 1677 := by
  intro es
  induction es with
  | nil => intro ops _ hst op hm; exact hst op hm
  | cons e rest ih =>
    intro ops hes hst op hm
    refine ih (stepSwap font blocks ops e)
      (fun e' he' => hes e' (List.mem_cons_of_mem _ he')) ?_ op hm
    intro op' hm'
    unfold stepSwap at hm'
    rcases List.mem_append.mp hm' with h' | h'
    · exact hst op' h'
    · rw [entryOpsSwap_posX font blocks e.1 e.2 op' h']
      exact hes e (List.mem_cons_self _ _)

/-- The FAN ops all sit at x = 1677, so the filter keeps them. -/
theorem fanOps_filter (blocks : List String) :
    (fanOps blocks).filter (fun op => Op.posX op == 1677) = fanOps blocks := by
  unfold fanOps
  split
  · split
    · rfl
    · rfl
  · rfl

/-- C6 (amended): in flippedcolor.py and swapblack.py the ops landing at
x = 1677 are exactly the FAN ops of block 36: the block's text is stripped of
leading/trailing whitespace, then space characters (only U+0020 — other
internal whitespace such as tabs is kept) are removed; when at least 14
characters remain, the characters at indices 1,2,4,5,8,9,13 are drawn at
(1677, 511); when fewer remain, or block 36 does not exist, nothing is drawn. -/
theorem C6_fan_position (font : Font) (blocks : List String) :
    ((write_pdf_blocks_color font blocks).filter (fun op => Op.posX op == 1677) =
      fanOps blocks) ∧
    ((write_pdf_blocks_swap font blocks).filter (fun op => Op.posX op == 1677) =
      fanOps blocks) ∧
    (36 < blocks.length →
      14 ≤ ((pyStrip (blocks.getD 36 "")).toList.filter (fun c => c != ' ')).length →
        fanOps blocks = [Op.text 1677 511
          (fanDigits ((pyStrip (blocks.getD 36 "")).toList.filter (fun c => c != ' ')))]) ∧
    (36 < blocks.length →
      ((pyStrip (blocks.getD 36 "")).toList.filter (fun c => c != ' ')).length < 14 →
        fanOps blocks = []) ∧
    (¬ 36 < blocks.length → fanOps blocks = []) := by
  refine ⟨?_, ?_, ?_, ?_, ?_⟩
  · unfold write_pdf_blocks_color
    rw [List.filter_append, fanOps_filter]
    have hnil : ((block_to_png_mapping.foldl (stepColor font blocks) ⟨[], 362⟩).ops).filter
        (fun op => Op.posX op == 1677) = [] := by
      rw [List.filter_eq_nil_iff]
      intro op hm
      have h2 := foldl_wst_posX (stepColor font blocks) (stepColor_mem font blocks)
        block_to_png_mapping ⟨[], 362⟩ (by decide)
        (by intro op' hm'; simp at hm') op hm
      simpa using h2
    rw [hnil]
    rfl
  · unfold write_pdf_blocks_swap
    rw [List.filter_append, fanOps_filter]
    have hnil : ((block_to_png_mapping.foldl (stepSwap font blocks) [])).filter
        (fun op => Op.posX op == 1677) = [] := by
      rw [List.filter_eq_nil_iff]
      intro op hm
      have h2 := foldl_swap_posX font blocks block_to_png_mapping [] (by decide)
        (by intro op' hm'; simp at hm') op hm
      simpa using h2
    rw [hnil]
    rfl
  · intro h h14
    unfold fanOps
    rw [if_pos h, if_pos h14]
  · intro h h14
    unfold fanOps
    rw [if_pos h, if_neg (by omega)]
  · intro h
    unfold fanOps
    rw [if_neg h]

/-- C6 witness: the FAN characterisation applied to a block-36 text with an
internal tab — the tab survives the space-only cleaning and is drawn. -/
theorem C6_fan_position_witness :
    (36 < blocksC6.length) ∧
    (14 ≤ ((pyStrip (blocksC6.getD 36 "")).toList.filter (fun c => c != ' ')).length) ∧
    fanOps blocksC6 = [Op.text 1677 511 "B\tDEHIM"] := by
  refine ⟨by decide, by decide, ?_⟩
  exact (C6_fan_position cFont blocksC6).2.2.1 (by decide) (by decide)

/-- C6 counterexample: the code removes only space characters, not all
whitespace: on block-36 text `"AB\tCDEFGHIJKLMN"` the code draws
`"B\tDEHIM"` while the claim's "stripped of all whitespace" reading
(`fanOpsClaimC6`) would draw `"BCEFIJN"`. -/
theorem C6_counterexample :
    fanOps blocksC6 = [Op.text 1677 511 "B\tDEHIM"] ∧
    fanOpsClaimC6 blocksC6 = [Op.text 1677 511 "BCEFIJN"] ∧
    ("B\tDEHIM" : String) ≠ "BCEFIJN" :=
  ⟨by decide, by decide, by decide⟩
